import Mathlib

/-!
Shallow embedding of `vulkan/tools/vkinfo.cpp`, a command-line diagnostic
utility that enumerates Vulkan physical devices and prints their properties.

The driver (Vulkan ICD) is external to the program; it is modelled as an
oracle supplying the result of each driver call.  Machine integers
(`uint32_t`, flag words) are modelled as `Nat`; enumerant numeric values
that come from the Vulkan header (which is not part of this repository)
are fixed to the header's conventional values and are never load-bearing
for the claims below, which depend only on the label tables and control
flow found in `vkinfo.cpp` itself.  Undefined behaviour (falling off the
end of `VkQueueFlagBitStr`, out-of-bounds vector reads) is modelled by
`Option`: a `none` outcome means the C++ program's behaviour is undefined.
-/

namespace Vkinfo

/-- Status codes returned by driver calls.  The constructor names are the
cases of the `switch` in `die` in `vkinfo.cpp`; `unknownCode` stands for any
other value of the C enum (caught by the `default:` case).  The numeric
values are modelled from the 2015 Vulkan header, which is not part of this
repository; no claim depends on the particular values. -/
inductive VkResult where
  | VK_SUCCESS
  | VK_UNSUPPORTED
  | VK_NOT_READY
  | VK_TIMEOUT
  | VK_EVENT_SET
  | VK_EVENT_RESET
  | VK_INCOMPLETE
  | VK_ERROR_OUT_OF_HOST_MEMORY
  | VK_ERROR_OUT_OF_DEVICE_MEMORY
  | VK_ERROR_INITIALIZATION_FAILED
  | VK_ERROR_DEVICE_LOST
  | VK_ERROR_MEMORY_MAP_FAILED
  | VK_ERROR_LAYER_NOT_PRESENT
  | VK_ERROR_EXTENSION_NOT_PRESENT
  | VK_ERROR_INCOMPATIBLE_DRIVER
  | unknownCode (code : Int)
  deriving DecidableEq

/-- Raw numeric value of a status code, printed by `die` via `%d`.
Values modelled from the Vulkan header (not in this repository). -/
def vkResultCode : VkResult → Int
  | .VK_SUCCESS => 0
  | .VK_UNSUPPORTED => 1
  | .VK_NOT_READY => 2
  | .VK_TIMEOUT => 3
  | .VK_EVENT_SET => 4
  | .VK_EVENT_RESET => 5
  | .VK_INCOMPLETE => 6
  | .VK_ERROR_OUT_OF_HOST_MEMORY => -1
  | .VK_ERROR_OUT_OF_DEVICE_MEMORY => -2
  | .VK_ERROR_INITIALIZATION_FAILED => -3
  | .VK_ERROR_DEVICE_LOST => -4
  | .VK_ERROR_MEMORY_MAP_FAILED => -5
  | .VK_ERROR_LAYER_NOT_PRESENT => -6
  | .VK_ERROR_EXTENSION_NOT_PRESENT => -7
  | .VK_ERROR_INCOMPATIBLE_DRIVER => -8
  | .unknownCode c => c

/-- String label table for status codes: the `switch` statement inside
`die` (`vkinfo.cpp` lines 32-51), including its `default:` fallback. -/
def vkResultStr : VkResult → String
  | .VK_SUCCESS => "VK_SUCCESS"
  | .VK_UNSUPPORTED => "VK_UNSUPPORTED"
  | .VK_NOT_READY => "VK_NOT_READY"
  | .VK_TIMEOUT => "VK_TIMEOUT"
  | .VK_EVENT_SET => "VK_EVENT_SET"
  | .VK_EVENT_RESET => "VK_EVENT_RESET"
  | .VK_INCOMPLETE => "VK_INCOMPLETE"
  | .VK_ERROR_OUT_OF_HOST_MEMORY => "VK_ERROR_OUT_OF_HOST_MEMORY"
  | .VK_ERROR_OUT_OF_DEVICE_MEMORY => "VK_ERROR_OUT_OF_DEVICE_MEMORY"
  | .VK_ERROR_INITIALIZATION_FAILED => "VK_ERROR_INITIALIZATION_FAILED"
  | .VK_ERROR_DEVICE_LOST => "VK_ERROR_DEVICE_LOST"
  | .VK_ERROR_MEMORY_MAP_FAILED => "VK_ERROR_MEMORY_MAP_FAILED"
  | .VK_ERROR_LAYER_NOT_PRESENT => "VK_ERROR_LAYER_NOT_PRESENT"
  | .VK_ERROR_EXTENSION_NOT_PRESENT => "VK_ERROR_EXTENSION_NOT_PRESENT"
  | .VK_ERROR_INCOMPATIBLE_DRIVER => "VK_ERROR_INCOMPATIBLE_DRIVER"
  | .unknownCode _ => "<unknown VkResult>"

/-- The single line `die` writes to standard error before calling `exit(1)`:
`fprintf(stderr, "%s failed: %s (%d)\n", proc, result_str, result)`. -/
def dieLine (proc : String) (r : VkResult) : String :=
  proc ++ " failed: " ++ vkResultStr r ++ " (" ++ toString (vkResultCode r) ++ ")"

/-- Device type labels: `VkPhysicalDeviceTypeStr`.  Enumerant values
(OTHER = 0, INTEGRATED_GPU = 1, DISCRETE_GPU = 2, VIRTUAL_GPU = 3, CPU = 4)
are modelled from the Vulkan header. -/
def VkPhysicalDeviceTypeStr (t : Nat) : String :=
  if t = 0 then "OTHER"
  else if t = 1 then "INTEGRATED_GPU"
  else if t = 2 then "DISCRETE_GPU"
  else if t = 3 then "VIRTUAL_GPU"
  else if t = 4 then "CPU"
  else "<UNKNOWN>"

/-- Queue capability flag bit values, modelled from the Vulkan header. -/
def VK_QUEUE_GRAPHICS_BIT : Nat := 1
def VK_QUEUE_COMPUTE_BIT : Nat := 2
def VK_QUEUE_DMA_BIT : Nat := 4
def VK_QUEUE_SPARSE_MEMMGR_BIT : Nat := 8
def VK_QUEUE_EXTENDED_BIT : Nat := 16

/-- Queue flag label lookup: `VkQueueFlagBitStr` (`vkinfo.cpp` lines 73-86).
The C++ `switch` has no `default:` case and the function has no `return`
after the `switch`, so for a bit outside the five known flags control falls
off the end of a non-void function: the result is undefined.  That undefined
outcome is modelled by `none`. -/
def VkQueueFlagBitStr (bit : Nat) : Option String :=
  if bit = VK_QUEUE_GRAPHICS_BIT then some "GRAPHICS"
  else if bit = VK_QUEUE_COMPUTE_BIT then some "COMPUTE"
  else if bit = VK_QUEUE_DMA_BIT then some "DMA"
  else if bit = VK_QUEUE_SPARSE_MEMMGR_BIT then some "SPARSE"
  else if bit = VK_QUEUE_EXTENDED_BIT then some "EXT"
  else none

/-- Value of the lowest set bit of `n` (`0` when `n = 0`); in the source the
loop computes it as `1 << (__builtin_ffs(queue_flags) - 1)`. -/
def lowestSetBitVal (n : Nat) : Nat := n &&& (n ^^^ (n - 1))

/-- The queue capability extraction loop (`vkinfo.cpp` lines 149-156):
repeatedly take the lowest set bit, look up its label, append it after the
current separator, clear the bit, and continue with separator `"+"`.
Clearing the lowest set bit (`queue_flags &= ~flag`) is modelled as
subtraction of `flag`, which is numerically identical because `flag` is a
single bit that is set in `f`.  The structural `fuel` argument only bounds
the iteration count; each iteration clears one set bit, so `f + 1`
iterations always suffice and the fuel-exhaustion branch is unreachable
from `queueFlagsStr`.  `none` means undefined behaviour (an unmapped bit
reached `VkQueueFlagBitStr`). -/
def queueFlagsGo : Nat → String → Nat → Option String
  | _, _, 0 => none
  | f, sep, fuel + 1 =>
    if f = 0 then some ""
    else
      let flag := lowestSetBitVal f
      match VkQueueFlagBitStr flag with
      | none => none
      | some lbl =>
        match queueFlagsGo (f - flag) "+" fuel with
        | none => none
        | some rest => some (sep ++ lbl ++ rest)

/-- Capability string built for a queue-family flag word. -/
def queueFlagsStr (f : Nat) : Option String := queueFlagsGo f "" (f + 1)

/-- Three-part API version extracted from the packed 32-bit version integer
(`vkinfo.cpp` lines 98-99): `(v >> 22) & 0x3FF`, `(v >> 12) & 0x3FF`,
`(v >> 0) & 0xFFF`. -/
def versionTriple (v : Nat) : Nat × Nat × Nat :=
  ((v >>> 22) &&& 0x3FF, (v >>> 12) &&& 0x3FF, (v >>> 0) &&& 0xFFF)

/-- Memory property flag bit values, modelled from the Vulkan header.
`VK_MEMORY_PROPERTY_DEVICE_ONLY` is the zero (empty) flag set. -/
def VK_MEMORY_PROPERTY_DEVICE_ONLY : Nat := 0
def VK_MEMORY_PROPERTY_HOST_VISIBLE_BIT : Nat := 1
def VK_MEMORY_PROPERTY_HOST_NON_COHERENT_BIT : Nat := 2
def VK_MEMORY_PROPERTY_HOST_UNCACHED_BIT : Nat := 4
def VK_MEMORY_PROPERTY_HOST_WRITE_COMBINED_BIT : Nat := 8
def VK_MEMORY_PROPERTY_LAZILY_ALLOCATED_BIT : Nat := 16

/-- Heap flag bit value, modelled from the Vulkan header. -/
def VK_MEMORY_HEAP_HOST_LOCAL_BIT : Nat := 1

/-- Flag string built for one memory type (`vkinfo.cpp` lines 119-130):
an exact-equality check for `DEVICE_ONLY` first, then one bit test per
label, each appending to the stream buffer only when its condition holds. -/
def memFlagsStr (flags : Nat) : String :=
  (if flags = VK_MEMORY_PROPERTY_DEVICE_ONLY then "DEVICE_ONLY" else "") ++
  (if flags &&& VK_MEMORY_PROPERTY_HOST_VISIBLE_BIT ≠ 0 then "HOST_VISIBLE" else "") ++
  (if flags &&& VK_MEMORY_PROPERTY_HOST_NON_COHERENT_BIT ≠ 0 then " NON_COHERENT" else "") ++
  (if flags &&& VK_MEMORY_PROPERTY_HOST_UNCACHED_BIT ≠ 0 then " UNCACHED" else "") ++
  (if flags &&& VK_MEMORY_PROPERTY_HOST_WRITE_COMBINED_BIT ≠ 0 then " WRITE_COMBINED" else "") ++
  (if flags &&& VK_MEMORY_PROPERTY_LAZILY_ALLOCATED_BIT ≠ 0 then " LAZILY_ALLOCATED" else "")

/-- The same six checks as `memFlagsStr`, as an explicit ordered list of
appended fragments; spelling out the fixed check order the specification
describes.  `memFlagsStr` is proved equal to the join of this list. -/
def memFlagsChecks (flags : Nat) : List String :=
  [if flags = VK_MEMORY_PROPERTY_DEVICE_ONLY then "DEVICE_ONLY" else "",
   if flags &&& VK_MEMORY_PROPERTY_HOST_VISIBLE_BIT ≠ 0 then "HOST_VISIBLE" else "",
   if flags &&& VK_MEMORY_PROPERTY_HOST_NON_COHERENT_BIT ≠ 0 then " NON_COHERENT" else "",
   if flags &&& VK_MEMORY_PROPERTY_HOST_UNCACHED_BIT ≠ 0 then " UNCACHED" else "",
   if flags &&& VK_MEMORY_PROPERTY_HOST_WRITE_COMBINED_BIT ≠ 0 then " WRITE_COMBINED" else "",
   if flags &&& VK_MEMORY_PROPERTY_LAZILY_ALLOCATED_BIT ≠ 0 then " LAZILY_ALLOCATED" else ""]

/-- Specification-level description of the capability string: the labels of
the set bits in ascending bit position, joined with `"+"`. -/
def queueFlagLabels : List String := ["GRAPHICS", "COMPUTE", "DMA", "SPARSE", "EXT"]

/-- Ascending-bit-position capability string described by the specification. -/
def queueFlagsAscSpec (f : Nat) : String :=
  String.intercalate "+" (((List.range 5).filter (fun b => f.testBit b)).map
    (fun b => queueFlagLabels.getD b ""))

/-- Lowercase hexadecimal digits of `n`, as printed by `%x` (and `"0"` for `0`). -/
def hexStr (n : Nat) : String := (Nat.toDigits 16 n).asString

/-- Rendering of `%#x` (alternate form): a `0x` prefix except for the value `0`. -/
def hexAlt (n : Nat) : String := if n = 0 then "0" else "0x" ++ hexStr n

/-- Rendering of `%04x`: lowercase hex, zero-padded on the left to width 4. -/
def hexPad4 (n : Nat) : String :=
  (List.replicate (4 - (hexStr n).length) '0').asString ++ hexStr n

/-- Rendering of `%2u`: decimal, space-padded on the left to width 2. -/
def pad2 (n : Nat) : String :=
  (List.replicate (2 - (toString n).length) ' ').asString ++ toString n

/-- The "YES"/"NO" rendering of the timestamp-support flag. -/
def tsStr (b : Bool) : String := if b then "YES" else "NO"

/-- `VkPhysicalDeviceProperties` fields read by the tool. -/
structure VkPhysicalDeviceProperties where
  deviceName : String
  deviceType : Nat
  apiVersion : Nat
  driverVersion : Nat
  vendorId : Nat
  deviceId : Nat
  deriving DecidableEq

/-- One `VkMemoryHeap`: byte size and flag word. -/
structure VkMemoryHeap where
  size : Nat
  flags : Nat
  deriving DecidableEq

instance : Inhabited VkMemoryHeap := ⟨⟨0, 0⟩⟩

/-- One `VkMemoryType`: property flag word and owning heap index. -/
structure VkMemoryType where
  propertyFlags : Nat
  heapIndex : Nat
  deriving DecidableEq

instance : Inhabited VkMemoryType := ⟨⟨0, 0⟩⟩

/-- `VkPhysicalDeviceMemoryProperties`: the heap and type arrays (the C
struct stores fixed-capacity arrays plus counts; the lists here hold
exactly the first `memoryHeapCount` and `memoryTypeCount` entries). -/
structure VkPhysicalDeviceMemoryProperties where
  memoryHeaps : List VkMemoryHeap
  memoryTypes : List VkMemoryType
  deriving DecidableEq

/-- One `VkQueueFamilyProperties` entry. -/
structure VkQueueFamilyProperties where
  queueFlags : Nat
  queueCount : Nat
  supportsTimestamps : Bool
  deriving DecidableEq

/-- The device line printed by `DumpPhysicalDevice` (`vkinfo.cpp` lines
96-100): `"  %u: \"%s\" (%s) %u.%u.%u/%#x [%04x:%04x]\n"`. -/
def devLine (idx : Nat) (p : VkPhysicalDeviceProperties) : String :=
  let v := versionTriple p.apiVersion
  "  " ++ toString idx ++ ": \"" ++ p.deviceName ++ "\" (" ++
    VkPhysicalDeviceTypeStr p.deviceType ++ ") " ++
    toString v.1 ++ "." ++ toString v.2.1 ++ "." ++ toString v.2.2 ++ "/" ++
    hexAlt p.driverVersion ++ " [" ++ hexPad4 p.vendorId ++ ":" ++
    hexPad4 p.deviceId ++ "]"

/-- The heap line (`vkinfo.cpp` lines 107-111):
`"     Heap %u: 0x%" PRIx64 " %s\n"`, where the flag text is `HOST_LOCAL`
exactly when the heap's `HOST_LOCAL` bit is set. -/
def heapLine (idx : Nat) (h : VkMemoryHeap) : String :=
  "     Heap " ++ toString idx ++ ": 0x" ++ hexStr h.size ++ " " ++
    (if h.flags &&& VK_MEMORY_HEAP_HOST_LOCAL_BIT ≠ 0 then "HOST_LOCAL" else "")

/-- The memory-type line (`vkinfo.cpp` line 131): `"       Type %u: %s\n"`. -/
def typeLine (idx : Nat) (t : VkMemoryType) : String :=
  "       Type " ++ toString idx ++ ": " ++ memFlagsStr t.propertyFlags

/-- Indices of the memory types printed under heap `h`: the inner loop of
`DumpPhysicalDevice` (`vkinfo.cpp` lines 114-116) runs the type index over
`0 ..< memoryTypeCount` and skips (`continue`) every type whose `heapIndex`
differs from the current heap. -/
def typeIndicesForHeap (h : Nat) (types : List VkMemoryType) : List Nat :=
  (List.range types.length).filter (fun i => (types.getD i default).heapIndex = h)

/-- The type lines printed under heap `h`, in inner-loop order. -/
def typeLinesForHeap (h : Nat) (types : List VkMemoryType) : List String :=
  (typeIndicesForHeap h types).map (fun i => typeLine i (types.getD i default))

/-- All lines of the memory report of one device: the nested loops of
`vkinfo.cpp` lines 106-134 (outer loop over heaps in index order; under
each heap line, the filtered inner loop over all types). -/
def memLines (heaps : List VkMemoryHeap) (types : List VkMemoryType) : List String :=
  ((List.range heaps.length).map (fun h =>
    heapLine h (heaps.getD h default) :: typeLinesForHeap h types)).flatten

/-- All type indices printed for one device, in print order. -/
def printedTypeIndices (heaps : List VkMemoryHeap) (types : List VkMemoryType) : List Nat :=
  ((List.range heaps.length).map (fun h => typeIndicesForHeap h types)).flatten

/-- The queue-family line (`vkinfo.cpp` lines 157-159):
`"     Queue Family %u: %2ux %s timestamps:%s\n"`; `none` when building the
capability string hits undefined behaviour. -/
def queueFamilyLine (fam : Nat) (q : VkQueueFamilyProperties) : Option String :=
  match queueFlagsStr q.queueFlags with
  | none => none
  | some caps => some ("     Queue Family " ++ toString fam ++ ": " ++
      pad2 q.queueCount ++ "x " ++ caps ++ " timestamps:" ++ tsStr q.supportsTimestamps)

/-- The queue-family loop (`vkinfo.cpp` lines 147-161): one line per family
index below the count reported by the values-query, reading the working
vector at that index.  `none` models undefined behaviour: either an
out-of-bounds vector read (the reported count exceeds the vector length) or
an unmapped queue-flag bit. -/
def queueLines (qn : Nat) (vec : List VkQueueFamilyProperties) : Option (List String) :=
  (List.range qn).mapM (fun fam => (vec.get? fam).bind (queueFamilyLine fam))

/-- Outcome of a program fragment: the stdout and stderr lines it produced,
and whether it ended by calling `die` (which prints and exits 1). -/
inductive StepOut where
  | ok (out err : List String)
  | died (out err : List String)
  deriving DecidableEq

/-- Driver responses for the per-device queries made by
`DumpPhysicalDevice`.  Each field is the status plus the data the call
writes through its output pointers.  `queueFamilyValues` holds the count
reported by the values-query together with the contents of the working
vector after the call. -/
structure DeviceOracle where
  properties : VkResult × VkPhysicalDeviceProperties
  memoryProperties : VkResult × VkPhysicalDeviceMemoryProperties
  queueFamilyCount : VkResult × Nat
  queueFamilyValues : VkResult × Nat × List VkQueueFamilyProperties

/-- `DumpPhysicalDevice` (`vkinfo.cpp` lines 88-162): query and print
device properties, memory properties, then queue families; any non-success
status diverts to `die` with the documented call name.  `none` models
undefined behaviour inside the queue-family loop. -/
def dumpDevice (idx : Nat) (o : DeviceOracle) : Option StepOut :=
  let (r1, props) := o.properties
  if r1 ≠ VkResult.VK_SUCCESS then
    some (.died [] [dieLine "vkGetPhysicalDeviceProperties" r1])
  else
    let l1 := devLine idx props
    let (r2, mem) := o.memoryProperties
    if r2 ≠ VkResult.VK_SUCCESS then
      some (.died [l1] [dieLine "vkGetPhysicalDeviceMemoryProperties" r2])
    else
      let memLs := memLines mem.memoryHeaps mem.memoryTypes
      let (r3, _count) := o.queueFamilyCount
      if r3 ≠ VkResult.VK_SUCCESS then
        some (.died (l1 :: memLs) [dieLine "vkGetPhysicalDeviceQueueFamilyProperties (count)" r3])
      else
        let (r4, qn, qvec) := o.queueFamilyValues
        if r4 ≠ VkResult.VK_SUCCESS then
          some (.died (l1 :: memLs) [dieLine "vkGetPhysicalDeviceQueueFamilyProperties (values)" r4])
        else
          match queueLines qn qvec with
          | none => none
          | some qLs => some (.ok (l1 :: (memLs ++ qLs)) [])

/-- Driver responses for the calls made by `main`.  `enumCount` is the
count-query of `vkEnumeratePhysicalDevices`, `enumValues` the count it
reports when filling the buffer; physical-device handles are opaque, so the
per-device oracle is indexed by position.  `destroyInstance` is the status
returned by the `vkDestroyInstance` call at the end of the success path
(`vkinfo.cpp` line 205); in this pre-1.0 API generation every command
returns a `VkResult`, and `main` discards this one. -/
structure Driver where
  createInstance : VkResult
  enumCount : VkResult × Nat
  enumValues : VkResult × Nat
  device : Nat → DeviceOracle
  destroyInstance : VkResult

/-- The device loop of `main` (`vkinfo.cpp` lines 202-203), with `die`
short-circuiting the rest of the loop. -/
def dumpLoop (dev : Nat → DeviceOracle) : List Nat → Option StepOut
  | [] => some (.ok [] [])
  | i :: rest =>
    match dumpDevice i (dev i) with
    | none => none
    | some (.died o1 e1) => some (.died o1 e1)
    | some (.ok o1 e1) =>
      match dumpLoop dev rest with
      | none => none
      | some (.died o2 e2) => some (.died (o1 ++ o2) (e1 ++ e2))
      | some (.ok o2 e2) => some (.ok (o1 ++ o2) (e1 ++ e2))

/-- The warning `main` prints to standard error when the values-query
reports a different device count than the count-query (`vkinfo.cpp` lines
196-198). -/
def shrinkWarning (n m : Nat) : String :=
  "number of physical devices decreased from " ++ toString n ++ " to " ++ toString m ++ "!"

/-- Observable result of one program run: the lines written to standard
output and standard error, and the exit code. -/
structure RunResult where
  stdoutLines : List String
  stderrLines : List String
  exitCode : Nat
  deriving DecidableEq

/-- `main` (`vkinfo.cpp` lines 166-208): create the instance, enumerate
devices with the two-phase count/values pattern, warn and resize on a count
mismatch, print the header, dump every device in the (possibly resized)
list, destroy the instance, return 0.  Any failing driver call checked by
the code diverts to `die`, which prints its line to standard error and
exits with code 1.  The `vkDestroyInstance` call on the success path (line
205) also returns a status, but the code discards it (the `let _discarded`
below), so its value never influences the output or the exit code.  After
the resize the working list always has `m` elements (`m` being the count
reported by the values-query), so the loop runs over `0 ..< m`. -/
def runMain (d : Driver) : Option RunResult :=
  if d.createInstance ≠ VkResult.VK_SUCCESS then
    some ⟨[], [dieLine "vkCreateInstance" d.createInstance], 1⟩
  else
    let (r1, n) := d.enumCount
    if r1 ≠ VkResult.VK_SUCCESS then
      some ⟨[], [dieLine "vkEnumeratePhysicalDevices (count)" r1], 1⟩
    else
      let (r2, m) := d.enumValues
      if r2 ≠ VkResult.VK_SUCCESS then
        some ⟨[], [dieLine "vkEnumeratePhysicalDevices (data)" r2], 1⟩
      else
        let warnLs := if m ≠ n then [shrinkWarning n m] else []
        match dumpLoop d.device (List.range m) with
        | none => none
        | some (.died o e) => some ⟨"PhysicalDevices:" :: o, warnLs ++ e, 1⟩
        | some (.ok o e) =>
          let _discarded := d.destroyInstance
          some ⟨"PhysicalDevices:" :: o, warnLs ++ e, 0⟩

/-- The program's entry point takes `argc`/`argv` but never reads them
(`vkinfo.cpp` line 166: both parameters are unnamed). -/
def vkinfoMain (_argv : List String) (d : Driver) : Option RunResult := runMain d

/-! Concrete example inputs used by counterexamples and witnesses. -/

/-- Example device properties. -/
def demoProps : VkPhysicalDeviceProperties :=
  { deviceName := "demo", deviceType := 2, apiVersion := 0x00401003,
    driverVersion := 0x1234, vendorId := 0x8086, deviceId := 0x1b3 }

/-- Example memory layout: one host-local heap owning one DEVICE_ONLY type. -/
def demoMem : VkPhysicalDeviceMemoryProperties :=
  { memoryHeaps := [⟨0x10000, 1⟩], memoryTypes := [⟨0, 0⟩] }

/-- Example device oracle whose queries all succeed. -/
def demoOracle : DeviceOracle :=
  { properties := (.VK_SUCCESS, demoProps),
    memoryProperties := (.VK_SUCCESS, demoMem),
    queueFamilyCount := (.VK_SUCCESS, 1),
    queueFamilyValues := (.VK_SUCCESS, 1, [⟨3, 1, true⟩]) }

/-- The stdout lines `DumpPhysicalDevice` produces for device `i` against
`demoOracle`. -/
def demoOuts (i : Nat) : List String :=
  [devLine i demoProps,
   heapLine 0 ⟨0x10000, 1⟩,
   typeLine 0 ⟨0, 0⟩,
   "     Queue Family 0:  1x GRAPHICS+COMPUTE timestamps:YES"]

/-- Driver whose count-query reports 3 devices but whose values-query
reports (and fills) only 2. -/
def demoDriver : Driver :=
  { createInstance := .VK_SUCCESS,
    enumCount := (.VK_SUCCESS, 3),
    enumValues := (.VK_SUCCESS, 2),
    device := fun _ => demoOracle,
    destroyInstance := .VK_SUCCESS }

/-- Driver whose `vkCreateInstance` fails with a status outside the known
set. -/
def badDriver : Driver :=
  { createInstance := VkResult.unknownCode 99,
    enumCount := (.VK_SUCCESS, 0),
    enumValues := (.VK_SUCCESS, 0),
    device := fun _ => demoOracle,
    destroyInstance := .VK_SUCCESS }

/-- Driver whose calls all succeed (reporting zero devices) except the
final `vkDestroyInstance`, which fails with `VK_ERROR_DEVICE_LOST`. -/
def destroyFailDriver : Driver :=
  { createInstance := .VK_SUCCESS,
    enumCount := (.VK_SUCCESS, 0),
    enumValues := (.VK_SUCCESS, 0),
    device := fun _ => demoOracle,
    destroyInstance := .VK_ERROR_DEVICE_LOST }

/-- Device oracle whose queue-family count-query reports 2 families but
whose values-query reports only 1 (a shrinking count); every call
succeeds. -/
def shrinkQueueOracle : DeviceOracle :=
  { properties := (.VK_SUCCESS, demoProps),
    memoryProperties := (.VK_SUCCESS, ⟨[], []⟩),
    queueFamilyCount := (.VK_SUCCESS, 2),
    queueFamilyValues := (.VK_SUCCESS, 1, [⟨1, 1, false⟩, ⟨1, 1, false⟩]) }

/-- A memory type with a valid heap index. -/
def goodType : VkMemoryType := ⟨1, 0⟩

/-- A memory type whose heap index (5) is outside the heap list. -/
def badType : VkMemoryType := ⟨1, 5⟩

/-- A single-heap heap list. -/
def oneHeap : List VkMemoryHeap := [⟨0x1000, 0⟩]

/-! Helper lemmas shared by the claim theorems. -/

/-- If every device dump in the list succeeds, the device loop succeeds,
its stdout is the concatenation of the per-device outputs, and it writes
nothing to standard error. -/
theorem dumpLoop_ok (dev : Nat → DeviceOracle) (outs : Nat → List String) :
    ∀ l : List Nat, (∀ i ∈ l, dumpDevice i (dev i) = some (.ok (outs i) [])) →
      dumpLoop dev l = some (.ok (l.map outs).flatten []) := by
  intro l
  induction l with
  | nil => intro _; rfl
  | cons i rest ih =>
    intro h
    have hi := h i (List.mem_cons_self i rest)
    have hrest := ih (fun j hj => h j (List.mem_cons_of_mem _ hj))
    simp [dumpLoop, hi, hrest]

/-- Full characterization of a successful run: header line, per-device
output in index order over the (possibly resized) list of `m` devices, the
shrink warning on standard error exactly when the two counts differ, and
exit code 0. -/
theorem runMain_ok (d : Driver) (n m : Nat) (outs : Nat → List String)
    (h0 : d.createInstance = VkResult.VK_SUCCESS)
    (h1 : d.enumCount = (VkResult.VK_SUCCESS, n))
    (h2 : d.enumValues = (VkResult.VK_SUCCESS, m))
    (h3 : ∀ i ∈ List.range m, dumpDevice i (d.device i) = some (.ok (outs i) [])) :
    runMain d = some ⟨"PhysicalDevices:" :: ((List.range m).map outs).flatten,
      if m ≠ n then [shrinkWarning n m] else [], 0⟩ := by
  have hloop := dumpLoop_ok d.device outs (List.range m) h3
  simp [runMain, h0, h1, h2, hloop]

/-! Claim theorems. -/

/-- C4: for every packed 32-bit API version integer, the printed three-part
version is (bits 31..22, bits 21..12, bits 11..0) = (major, minor, patch)
— i.e. `versionTriple v = (v / 2^22 mod 2^10, v / 2^12 mod 2^10, v mod 2^12)`
— and in particular for input `0x00401003` the triple equals `(1, 1, 3)`. -/
theorem vkinfo_C4 :
    (∀ v : Nat, versionTriple v = (v / 2 ^ 22 % 2 ^ 10, v / 2 ^ 12 % 2 ^ 10, v % 2 ^ 12)) ∧
    versionTriple 0x00401003 = (1, 1, 3) := by
  constructor
  · intro v
    have hm10 : ∀ x : Nat, x &&& 0x3FF = x % 2 ^ 10 := by
      intro x
      have h := Nat.and_pow_two_sub_one_eq_mod x 10
      norm_num at h
      norm_num [h]
    have hm12 : ∀ x : Nat, x &&& 0xFFF = x % 2 ^ 12 := by
      intro x
      have h := Nat.and_pow_two_sub_one_eq_mod x 12
      norm_num at h
      norm_num [h]
    unfold versionTriple
    rw [Nat.shiftRight_eq_div_pow, Nat.shiftRight_eq_div_pow, Nat.shiftRight_eq_div_pow,
      hm10, hm10, hm12]
    norm_num
  · decide

/-- C5: the memory-type flag string is built by the fixed check order
DEVICE_ONLY (exact equality), then HOST_VISIBLE, NON_COHERENT, UNCACHED,
WRITE_COMBINED, LAZILY_ALLOCATED, each fragment appended only when its
condition holds (`memFlagsStr` equals the join of the ordered check list
`memFlagsChecks`), and for flags = HOST_VISIBLE | HOST_NON_COHERENT the
string is exactly `"HOST_VISIBLE NON_COHERENT"`. -/
theorem vkinfo_C5 :
    memFlagsStr (VK_MEMORY_PROPERTY_HOST_VISIBLE_BIT |||
        VK_MEMORY_PROPERTY_HOST_NON_COHERENT_BIT) = "HOST_VISIBLE NON_COHERENT" ∧
    (∀ flags : Nat, memFlagsStr flags = String.join (memFlagsChecks flags)) := by
  constructor
  · decide
  · intro flags
    unfold memFlagsStr memFlagsChecks
    split_ifs <;> rfl

/-- C6: the queue-family capability string is the `+`-joined sequence of
labels of the set bits in ascending bit position (the lowest-set-bit
extraction loop agrees with the ascending-bit-position description for
every flag word whose bits are among the five known flags), the
timestamp-support flag is rendered YES/NO, and for
flags = GRAPHICS | COMPUTE the capability string is exactly
`"GRAPHICS+COMPUTE"`. -/
theorem vkinfo_C6 :
    queueFlagsStr (VK_QUEUE_GRAPHICS_BIT ||| VK_QUEUE_COMPUTE_BIT) = some "GRAPHICS+COMPUTE" ∧
    (∀ f : Nat, f < 32 → queueFlagsStr f = some (queueFlagsAscSpec f)) ∧
    tsStr true = "YES" ∧ tsStr false = "NO" :=
  ⟨by decide, by decide, rfl, rfl⟩

/-- Witness for C6: the ascending-bit-position description evaluated at the
concrete flag word 6 = COMPUTE | DMA. -/
theorem vkinfo_C6_witness : queueFlagsStr 6 = some (queueFlagsAscSpec 6) :=
  vkinfo_C6.2.1 6 (by decide)

/-- Counterexample for C2: a set bit outside the five known flags (bit
value 32) is reachable from the extraction loop, and there it produces an
undefined result (`none`, modelling control falling off the end of
`VkQueueFlagBitStr`) — the code does not fail fast on such a bit. -/
theorem vkinfo_C2_counterexample :
    queueFlagsStr 32 = none ∧ VkQueueFlagBitStr 32 = none := by
  constructor <;> decide

/-- C2 (amended): each of the five known queue-flag bits maps to its label
and the extraction loop returns a defined label string whenever every set
bit of the flag word is among the five known flags (flag word < 32); a bit
outside the five known flags reaches the lookup's undefined no-default case
(result `none`) rather than failing fast. -/
theorem vkinfo_C2 :
    (∀ f : Nat, f < 32 → (queueFlagsStr f).isSome = true) ∧
    VkQueueFlagBitStr VK_QUEUE_GRAPHICS_BIT = some "GRAPHICS" ∧
    VkQueueFlagBitStr VK_QUEUE_COMPUTE_BIT = some "COMPUTE" ∧
    VkQueueFlagBitStr VK_QUEUE_DMA_BIT = some "DMA" ∧
    VkQueueFlagBitStr VK_QUEUE_SPARSE_MEMMGR_BIT = some "SPARSE" ∧
    VkQueueFlagBitStr VK_QUEUE_EXTENDED_BIT = some "EXT" ∧
    (∀ b : Nat, b ≠ VK_QUEUE_GRAPHICS_BIT → b ≠ VK_QUEUE_COMPUTE_BIT →
      b ≠ VK_QUEUE_DMA_BIT → b ≠ VK_QUEUE_SPARSE_MEMMGR_BIT →
      b ≠ VK_QUEUE_EXTENDED_BIT → VkQueueFlagBitStr b = none) := by
  refine ⟨by decide, rfl, rfl, rfl, rfl, rfl, ?_⟩
  intro b h1 h2 h3 h4 h5
  simp [VkQueueFlagBitStr, h1, h2, h3, h4, h5]

/-- Witness for C2 (amended): concrete instances — the full flag word 31
yields a defined string, and the unknown single-bit word 32 is outside the
five known bits. -/
theorem vkinfo_C2_witness :
    (queueFlagsStr 31).isSome = true ∧ VkQueueFlagBitStr 32 = none :=
  ⟨vkinfo_C2.1 31 (by decide),
   vkinfo_C2.2.2.2.2.2.2 32 (by decide) (by decide) (by decide) (by decide) (by decide)⟩

/-- Counterexample for C3, refuting the claim as stated in two ways.
First, the fallback label for a status code outside the known set is the
literal `"<unknown VkResult>"`, not `"<unknown>"`.  Second, the claim's
"every driver call" fails on `vkDestroyInstance` (`vkinfo.cpp` line 205):
`destroyFailDriver` returns the non-success `VK_ERROR_DEVICE_LOST` from
that call, yet the run prints nothing to standard error and exits 0 —
the code discards that status instead of routing it through `die`. -/
theorem vkinfo_C3_counterexample :
    (vkResultStr (VkResult.unknownCode 12345) = "<unknown VkResult>" ∧
     vkResultStr (VkResult.unknownCode 12345) ≠ "<unknown>") ∧
    (destroyFailDriver.destroyInstance ≠ VkResult.VK_SUCCESS ∧
     runMain destroyFailDriver = some ⟨["PhysicalDevices:"], [], 0⟩) := by
  refine ⟨⟨rfl, by decide⟩, by decide, by decide⟩

/-- C8: the program consumes no command-line arguments — for any two
argument vectors and the same driver responses, the run results (stdout,
stderr and exit code) are identical. -/
theorem vkinfo_C8 : ∀ (argv1 argv2 : List String) (d : Driver),
    vkinfoMain argv1 d = vkinfoMain argv2 d := fun _ _ _ => rfl

/-- Counterexample for C9: the presence of a memory type with an invalid
heap index is not output-neutral — with heap list `oneHeap`, inserting
`badType` (heap index 5, out of range) in front of `goodType` changes the
printed line of `goodType` (its printed index counts positions in the full
type list), so "all other printed lines are unchanged by its presence"
fails. -/
theorem vkinfo_C9_counterexample :
    memLines oneHeap [badType, goodType] ≠ memLines oneHeap [goodType] := by
  decide

/-- C9 (amended): a memory type whose heap index is not in
`[0, heap count)` is silently omitted — its index is never printed under
any heap and no diagnostic exists on this path — while every type with a
valid heap index is printed under its owning heap; but the printed index of
each type is its position in the full type list, so the surrounding lines
are not unchanged by the invalid entry's presence (later types keep their
shifted indices, as the concrete `oneHeap`/`badType` instance shows). -/
theorem vkinfo_C9 :
    (∀ (heaps : List VkMemoryHeap) (types : List VkMemoryType) (i : Nat),
      i < types.length → heaps.length ≤ (types.getD i default).heapIndex →
      i ∉ printedTypeIndices heaps types) ∧
    (∀ (heaps : List VkMemoryHeap) (types : List VkMemoryType) (i : Nat),
      i < types.length → (types.getD i default).heapIndex < heaps.length →
      i ∈ typeIndicesForHeap (types.getD i default).heapIndex types) ∧
    memLines oneHeap [badType, goodType] = [heapLine 0 ⟨0x1000, 0⟩, typeLine 1 goodType] := by
  refine ⟨?_, ?_, by decide⟩
  · intro heaps types i hi hge hmem
    rw [printedTypeIndices, List.mem_flatten] at hmem
    obtain ⟨L, hL, hiL⟩ := hmem
    rw [List.mem_map] at hL
    obtain ⟨h, hh, rfl⟩ := hL
    rw [List.mem_range] at hh
    rw [typeIndicesForHeap, List.mem_filter] at hiL
    have heq : (types.getD i default).heapIndex = h := by
      simpa using hiL.2
    omega
  · intro heaps types i hi _
    simp [typeIndicesForHeap, List.mem_filter, List.mem_range, hi]

/-- Witness for C9 (amended): in the concrete instance, the invalid type
(index 0, heap index 5) is printed under no heap. -/
theorem vkinfo_C9_witness : (0 : Nat) ∉ printedTypeIndices oneHeap [badType, goodType] :=
  vkinfo_C9.1 oneHeap [badType, goodType] 0 (by decide) (by decide)

/-- C10: within one device's memory report, a type index is listed under
heap `h` exactly when it is a valid index whose type's heap index equals
`h` (hence under at most one heap, and exactly one when the heap index is
valid); type indices under a heap are in strictly ascending order; and the
report is the concatenation, over heap indices in ascending order
(`List.range`), of the heap line followed by that heap's type lines. -/
theorem vkinfo_C10 :
    (∀ (types : List VkMemoryType) (h i : Nat),
      i ∈ typeIndicesForHeap h types ↔
        (i < types.length ∧ (types.getD i default).heapIndex = h)) ∧
    (∀ (types : List VkMemoryType) (h h2 i : Nat),
      i ∈ typeIndicesForHeap h types → i ∈ typeIndicesForHeap h2 types → h = h2) ∧
    (∀ (types : List VkMemoryType) (h : Nat),
      List.Sorted (· < ·) (typeIndicesForHeap h types)) ∧
    (∀ (heaps : List VkMemoryHeap) (types : List VkMemoryType),
      memLines heaps types = ((List.range heaps.length).map (fun h =>
        heapLine h (heaps.getD h default) :: typeLinesForHeap h types)).flatten) := by
  have hmem : ∀ (types : List VkMemoryType) (h i : Nat),
      i ∈ typeIndicesForHeap h types ↔
        (i < types.length ∧ (types.getD i default).heapIndex = h) := by
    intro types h i
    simp [typeIndicesForHeap, List.mem_filter, List.mem_range]
  refine ⟨hmem, ?_, ?_, fun _ _ => rfl⟩
  · intro types h h2 i h1m h2m
    rw [hmem] at h1m h2m
    omega
  · intro types h
    exact (List.sorted_lt_range types.length).filter _

/-- Witness for C10: concrete instances of the characterization — index 1
(`goodType`, heap index 0) is listed under heap 0, and two memberships
force equal heap indices. -/
theorem vkinfo_C10_witness : (1 : Nat) ∈ typeIndicesForHeap 0 [badType, goodType] :=
  (vkinfo_C10.1 [badType, goodType] 0 1).mpr (by decide)

/-- Counterexample for C1: the two-phase pattern is not implemented
identically in both places — when the queue-family count shrinks between
the count-query (2) and the values-query (1), `DumpPhysicalDevice`
iterates only the single reported family and writes nothing to standard
error (the stderr component is `[]`), whereas the claim requires a
non-fatal diagnostic in both places. -/
theorem vkinfo_C1_counterexample :
    dumpDevice 0 shrinkQueueOracle =
      some (.ok [devLine 0 demoProps, "     Queue Family 0:  1x GRAPHICS timestamps:NO"] []) := by
  decide

/-- C1 (amended): both enumerations use the count-then-fill pattern and
tolerate a shrinking count, but not identically: device enumeration (in
`main`) truncates the working list to the reported count `m` and prints the
shrink warning to standard error, while queue-family enumeration (in
`DumpPhysicalDevice`) iterates only the count reported by the values-query
and prints no diagnostic (its standard-error output is empty even when that
count is smaller than the count-query's). -/
theorem vkinfo_C1 :
    (∀ (d : Driver) (n m : Nat) (outs : Nat → List String),
      d.createInstance = VkResult.VK_SUCCESS →
      d.enumCount = (VkResult.VK_SUCCESS, n) →
      d.enumValues = (VkResult.VK_SUCCESS, m) →
      m ≠ n →
      (∀ i ∈ List.range m, dumpDevice i (d.device i) = some (.ok (outs i) [])) →
      runMain d = some ⟨"PhysicalDevices:" :: ((List.range m).map outs).flatten,
        [shrinkWarning n m], 0⟩) ∧
    (∀ (idx : Nat) (o : DeviceOracle) (p : VkPhysicalDeviceProperties)
        (mm : VkPhysicalDeviceMemoryProperties) (c qn : Nat)
        (qvec : List VkQueueFamilyProperties) (qLs : List String),
      o.properties = (VkResult.VK_SUCCESS, p) →
      o.memoryProperties = (VkResult.VK_SUCCESS, mm) →
      o.queueFamilyCount = (VkResult.VK_SUCCESS, c) →
      o.queueFamilyValues = (VkResult.VK_SUCCESS, qn, qvec) →
      qn < c →
      queueLines qn qvec = some qLs →
      dumpDevice idx o = some (.ok
        (devLine idx p :: (memLines mm.memoryHeaps mm.memoryTypes ++ qLs)) [])) := by
  constructor
  · intro d n m outs h0 h1 h2 hne h3
    rw [runMain_ok d n m outs h0 h1 h2 h3, if_pos hne]
  · intro idx o p mm c qn qvec qLs h1 h2 h3 h4 _ h6
    simp [dumpDevice, h1, h2, h3, h4, h6]

/-- Witness for C1 (amended): both sides at concrete inputs — the device
count shrinking from 3 to 2 produces the warning and a successful run over
2 devices, and the queue-family count shrinking from 2 to 1 produces a dump
with empty standard error. -/
theorem vkinfo_C1_witness :
    runMain demoDriver = some ⟨"PhysicalDevices:" :: ((List.range 2).map demoOuts).flatten,
      [shrinkWarning 3 2], 0⟩ ∧
    dumpDevice 5 shrinkQueueOracle = some (.ok
      (devLine 5 demoProps :: (memLines ([] : List VkMemoryHeap) ([] : List VkMemoryType) ++
        ["     Queue Family 0:  1x GRAPHICS timestamps:NO"])) []) :=
  ⟨vkinfo_C1.1 demoDriver 3 2 demoOuts rfl rfl rfl (by decide) (by decide),
   vkinfo_C1.2 5 shrinkQueueOracle demoProps ⟨[], []⟩ 2 1 [⟨1, 1, false⟩, ⟨1, 1, false⟩]
     ["     Queue Family 0:  1x GRAPHICS timestamps:NO"] rfl rfl rfl rfl (by decide) (by decide)⟩

/-- C7: if the device count-query returns `n` and the values-query reports
only `m < n` devices, the working list is truncated to `m`, the shrink
warning is emitted to standard error, and the program still enumerates and
prints all `m` devices and exits successfully (code 0). -/
theorem vkinfo_C7 (d : Driver) (n m : Nat) (outs : Nat → List String)
    (h0 : d.createInstance = VkResult.VK_SUCCESS)
    (h1 : d.enumCount = (VkResult.VK_SUCCESS, n))
    (h2 : d.enumValues = (VkResult.VK_SUCCESS, m))
    (hlt : m < n)
    (h3 : ∀ i ∈ List.range m, dumpDevice i (d.device i) = some (.ok (outs i) [])) :
    runMain d = some ⟨"PhysicalDevices:" :: ((List.range m).map outs).flatten,
      [shrinkWarning n m], 0⟩ := by
  rw [runMain_ok d n m outs h0 h1 h2 h3, if_pos (Nat.ne_of_lt hlt)]

/-- Witness for C7: the concrete driver whose count-query reports 3 devices
and whose values-query reports 2; both devices are dumped and the run exits
with code 0 after warning. -/
theorem vkinfo_C7_witness :
    runMain demoDriver = some ⟨"PhysicalDevices:" :: ((List.range 2).map demoOuts).flatten,
      [shrinkWarning 3 2], 0⟩ :=
  vkinfo_C7 demoDriver 3 2 demoOuts rfl rfl rfl (by decide) (by decide)

/-- C3 (amended): every *checked* driver call — all of them except the
final `vkDestroyInstance`, whose returned status the code discards — is
fail-fast: a non-success status makes exactly the failing call's name, the
label from the fixed status table (with the `"<unknown VkResult>"` fallback
for codes outside the known set), and the raw numeric code appear on
standard error (the `dieLine`), after which the process exits with code 1
and performs no further queries (the run result is fully determined by the
calls made so far); the status of `vkDestroyInstance` never influences the
run result, so a run that completes exits with code 0 even when that call
fails; and no defined run has any other exit code.  The conjuncts cover, in
order: the exit-code dichotomy, the fallback label, the discarded
`vkDestroyInstance` status, the three checked call sites in `main`
(`vkCreateInstance`, `vkEnumeratePhysicalDevices` count and data), the four
call sites in `DumpPhysicalDevice`, a failure inside the device loop, and
the full-success case. -/
theorem vkinfo_C3 (d : Driver) :
    (∀ res, runMain d = some res → res.exitCode = 0 ∨ res.exitCode = 1) ∧
    (∀ z : Int, vkResultStr (VkResult.unknownCode z) = "<unknown VkResult>") ∧
    (∀ r : VkResult, runMain { d with destroyInstance := r } = runMain d) ∧
    (d.createInstance ≠ VkResult.VK_SUCCESS →
      runMain d = some ⟨[], [dieLine "vkCreateInstance" d.createInstance], 1⟩) ∧
    (∀ r n, d.createInstance = VkResult.VK_SUCCESS → d.enumCount = (r, n) →
      r ≠ VkResult.VK_SUCCESS →
      runMain d = some ⟨[], [dieLine "vkEnumeratePhysicalDevices (count)" r], 1⟩) ∧
    (∀ n r m, d.createInstance = VkResult.VK_SUCCESS →
      d.enumCount = (VkResult.VK_SUCCESS, n) → d.enumValues = (r, m) →
      r ≠ VkResult.VK_SUCCESS →
      runMain d = some ⟨[], [dieLine "vkEnumeratePhysicalDevices (data)" r], 1⟩) ∧
    (∀ (idx : Nat) (o : DeviceOracle) r p, o.properties = (r, p) →
      r ≠ VkResult.VK_SUCCESS →
      dumpDevice idx o = some (.died [] [dieLine "vkGetPhysicalDeviceProperties" r])) ∧
    (∀ (idx : Nat) (o : DeviceOracle) p r mm, o.properties = (VkResult.VK_SUCCESS, p) →
      o.memoryProperties = (r, mm) → r ≠ VkResult.VK_SUCCESS →
      dumpDevice idx o = some (.died [devLine idx p]
        [dieLine "vkGetPhysicalDeviceMemoryProperties" r])) ∧
    (∀ (idx : Nat) (o : DeviceOracle) p mm r c, o.properties = (VkResult.VK_SUCCESS, p) →
      o.memoryProperties = (VkResult.VK_SUCCESS, mm) → o.queueFamilyCount = (r, c) →
      r ≠ VkResult.VK_SUCCESS →
      dumpDevice idx o = some (.died (devLine idx p :: memLines mm.memoryHeaps mm.memoryTypes)
        [dieLine "vkGetPhysicalDeviceQueueFamilyProperties (count)" r])) ∧
    (∀ (idx : Nat) (o : DeviceOracle) p mm c r qn qvec,
      o.properties = (VkResult.VK_SUCCESS, p) →
      o.memoryProperties = (VkResult.VK_SUCCESS, mm) →
      o.queueFamilyCount = (VkResult.VK_SUCCESS, c) →
      o.queueFamilyValues = (r, qn, qvec) → r ≠ VkResult.VK_SUCCESS →
      dumpDevice idx o = some (.died (devLine idx p :: memLines mm.memoryHeaps mm.memoryTypes)
        [dieLine "vkGetPhysicalDeviceQueueFamilyProperties (values)" r])) ∧
    (∀ n m eo ee, d.createInstance = VkResult.VK_SUCCESS →
      d.enumCount = (VkResult.VK_SUCCESS, n) → d.enumValues = (VkResult.VK_SUCCESS, m) →
      dumpLoop d.device (List.range m) = some (.died eo ee) →
      runMain d = some ⟨"PhysicalDevices:" :: eo,
        (if m ≠ n then [shrinkWarning n m] else []) ++ ee, 1⟩) ∧
    (∀ (n m : Nat) (outs : Nat → List String), d.createInstance = VkResult.VK_SUCCESS →
      d.enumCount = (VkResult.VK_SUCCESS, n) → d.enumValues = (VkResult.VK_SUCCESS, m) →
      (∀ i ∈ List.range m, dumpDevice i (d.device i) = some (.ok (outs i) [])) →
      ∃ res, runMain d = some res ∧ res.exitCode = 0) := by
  refine ⟨?_, fun _ => rfl, fun _ => rfl, ?_, ?_, ?_, ?_, ?_, ?_, ?_, ?_, ?_⟩
  · intro res h
    unfold runMain at h
    repeat' split at h
    all_goals
      first
        | exact Option.noConfusion h
        | (simp only [Option.some.injEq] at h
           subst h
           first
             | exact Or.inl rfl
             | exact Or.inr rfl)
  · intro hne
    unfold runMain
    rw [if_pos hne]
  · intro r n h0 h1 hne
    simp [runMain, h0, h1, hne]
  · intro n r m h0 h1 h2 hne
    simp [runMain, h0, h1, h2, hne]
  · intro idx o r p h1 hne
    simp [dumpDevice, h1, hne]
  · intro idx o p r mm h1 h2 hne
    simp [dumpDevice, h1, h2, hne]
  · intro idx o p mm r c h1 h2 h3 hne
    simp [dumpDevice, h1, h2, h3, hne]
  · intro idx o p mm c r qn qvec h1 h2 h3 h4 hne
    simp [dumpDevice, h1, h2, h3, h4, hne]
  · intro n m eo ee h0 h1 h2 hloop
    simp [runMain, h0, h1, h2, hloop]
  · intro n m outs h0 h1 h2 h3
    exact ⟨_, runMain_ok d n m outs h0 h1 h2 h3, rfl⟩

/-- Witness for C3 (amended): the failing `vkCreateInstance` of `badDriver`
(status code 99, outside the known set) produces exactly the die line with
the fallback label and the raw code on standard error and exit code 1, and
overriding the discarded `vkDestroyInstance` status of `demoDriver` with a
failing one leaves the run result unchanged. -/
theorem vkinfo_C3_witness :
    runMain badDriver = some ⟨[], ["vkCreateInstance failed: <unknown VkResult> (99)"], 1⟩ ∧
    runMain { demoDriver with destroyInstance := VkResult.VK_ERROR_DEVICE_LOST } =
      runMain demoDriver :=
  ⟨((vkinfo_C3 badDriver).2.2.2.1 (by decide)).trans (by decide),
   (vkinfo_C3 demoDriver).2.2.1 VkResult.VK_ERROR_DEVICE_LOST⟩

end Vkinfo
